import Mathlib

/-!
Shallow embedding of the ark-project client integration layer.

Two source components are modelled:

* `useFulfillListing` — a React hook whose inner async function
  `fulfillListing` sequences two external calls (`approveERC20`, then
  `fulfillListingCore` from the marketplace SDK) and tracks a
  `status`/`stepStatus` pair for the UI.
* `declareDeploy` — a deployment script that loads contract artifacts,
  compiles constructor calldata and submits a combined declare+deploy
  request via the account object.

External calls (the SDK, the wallet, artifact loading) are modelled as
oracle functions carried in an environment record; a run of the code
produces a trace of events (state assignments, external calls, console
logging) together with the function's outcome (normal completion or a
propagated thrown error).  The hook's `useState` setters are modelled as
assignment events, folded over a state record to obtain the final state.
-/

namespace ArkProject

/-- UI lifecycle status values (`Status` from `../types`). -/
inductive Status
  | idle
  | loading
  | success
  | error
deriving DecidableEq, Repr

/-- Finer-grained step status values (`StepStatus` from `../types`). -/
inductive StepStatus
  | idle
  | approving
  | selling
  | sold
  | error
deriving DecidableEq, Repr

/-- Addresses are modelled as natural numbers (opaque identifiers). -/
abbrev Addr := Nat

/-- Errors thrown by external calls, modelled as strings. -/
abbrev Err := String

/-- The burner wallet account object, opaque. -/
abbrev Wallet := Nat

/-- `config.starknetContracts` — the network contract addresses. -/
structure StarknetContracts where
  eth : Addr
deriving DecidableEq, Repr

/-- The configuration object returned by `useConfig`. -/
structure Config where
  starknetContracts : StarknetContracts
deriving DecidableEq, Repr

/-- `fulfillListingParameters = ApproveERC20Parameters & FulfillListingInfo`:
the flat parameter record taken by `fulfillListing`.  `BigNumberish` values
are modelled as `Nat`; the optional `currencyAddress` is an `Option`
(`none` models a falsy/omitted value). -/
structure fulfillListingParameters where
  starknetAccount : Nat
  startAmount : Nat
  currencyAddress : Option Addr
  orderHash : Nat
  tokenAddress : Addr
  tokenId : Nat
  brokerId : Nat
deriving DecidableEq, Repr

/-- The argument record passed to `approveERC20`. -/
structure ApproveERC20Parameters where
  starknetAccount : Nat
  startAmount : Nat
  currencyAddress : Option Addr
deriving DecidableEq, Repr

/-- The `fulfillListingInfo` sub-record passed to `fulfillListingCore`. -/
structure FulfillListingInfo where
  orderHash : Nat
  tokenAddress : Addr
  tokenId : Nat
  brokerId : Nat
deriving DecidableEq, Repr

/-- The `approveInfo` sub-record passed to `fulfillListingCore`. -/
structure ApproveInfo where
  currencyAddress : Option Addr
  amount : Nat
deriving DecidableEq, Repr

/-- The second argument of `fulfillListingCore`. -/
structure FulfillListingCoreArgs where
  starknetAccount : Nat
  fulfillListingInfo : FulfillListingInfo
  approveInfo : ApproveInfo
deriving DecidableEq, Repr

/-- Observable events of a `fulfillListing` run: `useState` setter calls,
external SDK calls (recorded with the exact arguments they receive), and
console logging in the catch block. -/
inductive Event
  | setStatus (s : Status)
  | setStepStatus (s : StepStatus)
  | callApproveERC20 (args : ApproveERC20Parameters)
  | callFulfillListingCore (config : Option Config) (args : FulfillListingCoreArgs)
  | consoleLogged (e : Err)
deriving DecidableEq, Repr

/-- The hook's closure environment: the burner wallet (possibly absent),
the config (possibly absent), and the two external calls as oracles whose
result (`ok` or thrown error) is fixed by the environment. -/
structure HookEnv where
  arkAccount : Option Wallet
  config : Option Config
  approveERC20 : ApproveERC20Parameters → Except Err Unit
  fulfillListingCore : Option Config → FulfillListingCoreArgs → Except Err Unit

/-- JavaScript `a || b` on optional values: the left operand when present,
otherwise the right. -/
def jsOr (a b : Option Addr) : Option Addr :=
  match a with
  | some x => some x
  | none => b

/-- `Number(x)` applied to a `BigNumberish`; with `BigNumberish` modelled
as `Nat` the numeric value is unchanged. -/
def jsNumber (n : Nat) : Nat := n

/-- `parameters.currencyAddress || config?.starknetContracts.eth` — the
currency address after the fallback, as computed at both call sites. -/
def resolvedCurrency (env : HookEnv) (p : fulfillListingParameters) : Option Addr :=
  jsOr p.currencyAddress (env.config.map fun c => c.starknetContracts.eth)

/-- The argument record built for the `approveERC20` call. -/
def approveArgsOf (env : HookEnv) (p : fulfillListingParameters) :
    ApproveERC20Parameters :=
  { starknetAccount := p.starknetAccount
    startAmount := jsNumber p.startAmount
    currencyAddress := resolvedCurrency env p }

/-- The argument record built for the `fulfillListingCore` call. -/
def coreArgsOf (env : HookEnv) (p : fulfillListingParameters) :
    FulfillListingCoreArgs :=
  { starknetAccount := p.starknetAccount
    fulfillListingInfo :=
      { orderHash := p.orderHash
        tokenAddress := p.tokenAddress
        tokenId := p.tokenId
        brokerId := p.brokerId }
    approveInfo :=
      { currencyAddress := resolvedCurrency env p
        amount := p.startAmount } }

/-- The `fulfillListing` function of the hook.  Returns the trace of
events performed and the outcome: `Except.error` models the uncaught
`throw new Error("No burner wallet.")`; every failure inside the `try`
block is caught, logged and turned into `error` status values, so the
function completes normally (`Except.ok`) in those cases. -/
def fulfillListing (env : HookEnv) (p : fulfillListingParameters) :
    List Event × Except String Unit :=
  match env.arkAccount with
  | none => ([], .error "No burner wallet.")
  | some _ =>
    let approveArgs := approveArgsOf env p
    let pre : List Event :=
      [.setStatus .loading, .setStepStatus .approving, .callApproveERC20 approveArgs]
    match env.approveERC20 approveArgs with
    | .error e =>
        (pre ++ [.consoleLogged e, .setStatus .error, .setStepStatus .error], .ok ())
    | .ok _ =>
      let coreArgs := coreArgsOf env p
      let mid : List Event :=
        pre ++ [.setStepStatus .selling, .callFulfillListingCore env.config coreArgs]
      match env.fulfillListingCore env.config coreArgs with
      | .error e =>
          (mid ++ [.consoleLogged e, .setStatus .error, .setStepStatus .error], .ok ())
      | .ok _ =>
          (mid ++ [.setStatus .success, .setStepStatus .sold], .ok ())

/-- The hook's reactive state: the `status` and `stepStatus` values. -/
structure HookState where
  status : Status
  stepStatus : StepStatus
deriving DecidableEq, Repr

/-- Effect of one event on the hook state: setter events assign, all
other events leave the state unchanged. -/
def applyEvent (st : HookState) : Event → HookState
  | .setStatus s => { st with status := s }
  | .setStepStatus s => { st with stepStatus := s }
  | _ => st

/-- Final hook state after a trace of events, starting from `st`. -/
def runEvents (st : HookState) (evs : List Event) : HookState :=
  evs.foldl applyEvent st

/-- Whether an event is one of the two external SDK calls. -/
def Event.isExternalCall : Event → Bool
  | .callApproveERC20 _ => true
  | .callFulfillListingCore _ _ => true
  | _ => false

/-- Whether an event is an invocation of `fulfillListingCore`. -/
def Event.isFulfillCore : Event → Bool
  | .callFulfillListingCore _ _ => true
  | _ => false

/-! ### Deployment script (`scripts/deployer/contracts/orderbook.js`) -/

/-- An ABI, opaque. -/
abbrev Abi := Nat

/-- A sierra artifact: the ABI together with the rest of the compiled
contract, the latter opaque. -/
structure Sierra where
  abi : Abi
  program : Nat
deriving DecidableEq, Repr

/-- The artifact pair returned by `common.load_artifacts`. -/
structure Artifacts where
  sierra : Sierra
  casm : Nat
deriving DecidableEq, Repr

/-- The constructor data passed to `declareDeploy`; only `admin` is read. -/
structure ConstructorData where
  admin : Nat
deriving DecidableEq, Repr

/-- The request record passed to `account.declareAndDeploy`. -/
structure DeclareDeployRequest where
  contract : Sierra
  casm : Nat
  constructorCalldata : List Nat
  salt : Nat
deriving DecidableEq, Repr

/-- `deployR.deploy` — the deploy part of the provider's response. -/
structure DeployInfo where
  contract_address : Addr
deriving DecidableEq, Repr

/-- The response of `account.declareAndDeploy`. -/
structure DeployResponse where
  deploy : DeployInfo
deriving DecidableEq, Repr

/-- A `starknet.Contract` handle: ABI, bound address, provider. -/
structure Contract where
  abi : Abi
  address : Addr
  provider : Nat
deriving DecidableEq, Repr

/-- Environment of the deployment script: `common.load_artifacts` (repo
code outside the modelled sources, treated as an oracle keyed by path and
artifact name), `new sn.CallData(abi).compile("constructor", \x7b admin \x7d)`
(the starknet library's calldata compiler, an oracle keyed by the ABI and
the admin field), and the account's `declareAndDeploy` method.  Each may
throw, modelled by `Except`. -/
structure DeployEnv where
  load_artifacts : String → String → Except Err Artifacts
  compileConstructor : Abi → Nat → Except Err (List Nat)
  declareAndDeploy : DeclareDeployRequest → Except Err DeployResponse

/-- The `declareDeploy` function of the deployment script.  Returns the
list of requests submitted to `account.declareAndDeploy` together with the
outcome: the contract handle on success, or the propagated thrown error. -/
def declareDeploy (env : DeployEnv) (artifacts_path : String) (provider : Nat)
    (constructorData : ConstructorData) :
    List DeclareDeployRequest × Except Err Contract :=
  match env.load_artifacts artifacts_path "arkchain_orderbook" with
  | .error e => ([], .error e)
  | .ok artifacts =>
    match env.compileConstructor artifacts.sierra.abi constructorData.admin with
    | .error e => ([], .error e)
    | .ok contractConstructor =>
      let req : DeclareDeployRequest :=
        { contract := artifacts.sierra
          casm := artifacts.casm
          constructorCalldata := contractConstructor
          salt := 0x7777 }
      match env.declareAndDeploy req with
      | .error e => ([req], .error e)
      | .ok deployR =>
          ([req],
           .ok { abi := artifacts.sierra.abi
                 address := deployR.deploy.contract_address
                 provider := provider })

/-! ### Concrete environments and parameters, used by the witnesses -/

/-- A concrete parameter record with an explicit currency address. -/
def pSample : fulfillListingParameters :=
  { starknetAccount := 10
    startAmount := 5
    currencyAddress := some 77
    orderHash := 3
    tokenAddress := 4
    tokenId := 9
    brokerId := 2 }

/-- A concrete parameter record with the currency address omitted. -/
def pNoCurrency : fulfillListingParameters :=
  { pSample with currencyAddress := none }

/-- A concrete config. -/
def cfgSample : Config := { starknetContracts := { eth := 42 } }

/-- Environment where both external calls succeed. -/
def envOk : HookEnv :=
  { arkAccount := some 0
    config := some cfgSample
    approveERC20 := fun _ => .ok ()
    fulfillListingCore := fun _ _ => .ok () }

/-- Environment where the approval call throws. -/
def envApproveFail : HookEnv :=
  { envOk with approveERC20 := fun _ => .error "approve failed" }

/-- Environment where the approval succeeds and the core call throws. -/
def envCoreFail : HookEnv :=
  { envOk with fulfillListingCore := fun _ _ => .error "fulfill failed" }

/-- Environment with no burner wallet. -/
def envNoWallet : HookEnv :=
  { envOk with arkAccount := none }

/-! ### Theorems -/

/-- C1: with a burner wallet present, when both external calls return
successfully, after `fulfillListing` completes the status is `success`
and the stepStatus is `sold`. -/
theorem fulfillListing_both_ok (env : HookEnv) (p : fulfillListingParameters)
    (st : HookState) (w : Wallet)
    (hw : env.arkAccount = some w)
    (ha : env.approveERC20 (approveArgsOf env p) = .ok ())
    (hf : env.fulfillListingCore env.config (coreArgsOf env p) = .ok ()) :
    (fulfillListing env p).2 = .ok () ∧
    (runEvents st (fulfillListing env p).1).status = .success ∧
    (runEvents st (fulfillListing env p).1).stepStatus = .sold := by
  simp [fulfillListing, hw, ha, hf, runEvents, applyEvent]

/-- Witness for C1 at a concrete environment and parameter record. -/
theorem fulfillListing_both_ok_witness :
    (fulfillListing envOk pSample).2 = .ok () ∧
    (runEvents ⟨.idle, .idle⟩ (fulfillListing envOk pSample).1).status = .success ∧
    (runEvents ⟨.idle, .idle⟩ (fulfillListing envOk pSample).1).stepStatus = .sold :=
  fulfillListing_both_ok envOk pSample ⟨.idle, .idle⟩ 0 rfl rfl rfl

/-- C2: with a burner wallet present, when the approval call throws,
`fulfillListingCore` is never invoked and both status and stepStatus end
up `error`. -/
theorem fulfillListing_approve_fails (env : HookEnv)
    (p : fulfillListingParameters) (st : HookState) (w : Wallet) (e : Err)
    (hw : env.arkAccount = some w)
    (ha : env.approveERC20 (approveArgsOf env p) = .error e) :
    (∀ cfg args, Event.callFulfillListingCore cfg args ∉ (fulfillListing env p).1) ∧
    (runEvents st (fulfillListing env p).1).status = .error ∧
    (runEvents st (fulfillListing env p).1).stepStatus = .error := by
  simp [fulfillListing, hw, ha, runEvents, applyEvent]

/-- Witness for C2 at a concrete environment whose approval call throws. -/
theorem fulfillListing_approve_fails_witness :
    (∀ cfg args,
      Event.callFulfillListingCore cfg args ∉ (fulfillListing envApproveFail pSample).1) ∧
    (runEvents ⟨.idle, .idle⟩ (fulfillListing envApproveFail pSample).1).status = .error ∧
    (runEvents ⟨.idle, .idle⟩ (fulfillListing envApproveFail pSample).1).stepStatus = .error :=
  fulfillListing_approve_fails envApproveFail pSample ⟨.idle, .idle⟩ 0
    "approve failed" rfl rfl

/-- C3: with a burner wallet present, when the approval succeeds and the
core fulfillment call throws, both status and stepStatus end up `error`,
and the only external calls in the whole run are the one approval and the
one fulfillment attempt — no compensating call undoes the approval. -/
theorem fulfillListing_core_fails (env : HookEnv)
    (p : fulfillListingParameters) (st : HookState) (w : Wallet) (e : Err)
    (hw : env.arkAccount = some w)
    (ha : env.approveERC20 (approveArgsOf env p) = .ok ())
    (hf : env.fulfillListingCore env.config (coreArgsOf env p) = .error e) :
    (runEvents st (fulfillListing env p).1).status = .error ∧
    (runEvents st (fulfillListing env p).1).stepStatus = .error ∧
    (fulfillListing env p).1.filter Event.isExternalCall =
      [.callApproveERC20 (approveArgsOf env p),
       .callFulfillListingCore env.config (coreArgsOf env p)] := by
  simp [fulfillListing, hw, ha, hf, runEvents, applyEvent, Event.isExternalCall,
    List.filter]

/-- Witness for C3 at a concrete environment whose core call throws. -/
theorem fulfillListing_core_fails_witness :
    (runEvents ⟨.idle, .idle⟩ (fulfillListing envCoreFail pSample).1).status = .error ∧
    (runEvents ⟨.idle, .idle⟩ (fulfillListing envCoreFail pSample).1).stepStatus = .error ∧
    (fulfillListing envCoreFail pSample).1.filter Event.isExternalCall =
      [.callApproveERC20 (approveArgsOf envCoreFail pSample),
       .callFulfillListingCore envCoreFail.config (coreArgsOf envCoreFail pSample)] :=
  fulfillListing_core_fails envCoreFail pSample ⟨.idle, .idle⟩ 0
    "fulfill failed" rfl rfl rfl

/-- C6: with the burner wallet absent, `fulfillListing` throws
`"No burner wallet."` immediately: the trace is empty, so in particular
neither external call is attempted. -/
theorem fulfillListing_no_wallet_throws (env : HookEnv)
    (p : fulfillListingParameters)
    (hw : env.arkAccount = none) :
    (fulfillListing env p).2 = .error "No burner wallet." ∧
    (fulfillListing env p).1 = [] := by
  simp [fulfillListing, hw]

/-- Witness for C6 at a concrete environment with no wallet. -/
theorem fulfillListing_no_wallet_throws_witness :
    (fulfillListing envNoWallet pSample).2 = .error "No burner wallet." ∧
    (fulfillListing envNoWallet pSample).1 = [] :=
  fulfillListing_no_wallet_throws envNoWallet pSample rfl

/-- C9: with the burner wallet absent, `fulfillListing` throws before any
status assignment, so the hook state is exactly what it was before the
call, whatever that was. -/
theorem fulfillListing_no_wallet_state_unchanged (env : HookEnv)
    (p : fulfillListingParameters) (st : HookState)
    (hw : env.arkAccount = none) :
    (fulfillListing env p).2 = .error "No burner wallet." ∧
    runEvents st (fulfillListing env p).1 = st := by
  simp [fulfillListing, hw, runEvents]

/-- Witness for C9: on a first invocation both values remain `idle`. -/
theorem fulfillListing_no_wallet_state_unchanged_witness :
    (fulfillListing envNoWallet pSample).2 = .error "No burner wallet." ∧
    runEvents ⟨.idle, .idle⟩ (fulfillListing envNoWallet pSample).1 = ⟨.idle, .idle⟩ :=
  fulfillListing_no_wallet_state_unchanged envNoWallet pSample ⟨.idle, .idle⟩ rfl

/-- Every `approveERC20` call recorded in a run carries exactly the
argument record `approveArgsOf env p`. -/
theorem approve_event_args (env : HookEnv) (p : fulfillListingParameters)
    (args : ApproveERC20Parameters)
    (h : Event.callApproveERC20 args ∈ (fulfillListing env p).1) :
    args = approveArgsOf env p := by
  cases henv : env.arkAccount with
  | none => simp [fulfillListing, henv] at h
  | some w =>
    cases ha : env.approveERC20 (approveArgsOf env p) with
    | error e =>
      simp [fulfillListing, henv, ha] at h
      exact h
    | ok u =>
      cases hf : env.fulfillListingCore env.config (coreArgsOf env p) with
      | error e =>
        simp [fulfillListing, henv, ha, hf] at h
        exact h
      | ok v =>
        simp [fulfillListing, henv, ha, hf] at h
        exact h

/-- Every `fulfillListingCore` call recorded in a run carries the hook's
config and exactly the argument record `coreArgsOf env p`. -/
theorem core_event_args (env : HookEnv) (p : fulfillListingParameters)
    (cfg : Option Config) (args : FulfillListingCoreArgs)
    (h : Event.callFulfillListingCore cfg args ∈ (fulfillListing env p).1) :
    cfg = env.config ∧ args = coreArgsOf env p := by
  cases henv : env.arkAccount with
  | none => simp [fulfillListing, henv] at h
  | some w =>
    cases ha : env.approveERC20 (approveArgsOf env p) with
    | error e =>
      simp [fulfillListing, henv, ha] at h
    | ok u =>
      cases hf : env.fulfillListingCore env.config (coreArgsOf env p) with
      | error e =>
        simp [fulfillListing, henv, ha, hf] at h
        exact h
      | ok v =>
        simp [fulfillListing, henv, ha, hf] at h
        exact h

/-- C4: when the parameter record omits the currency address and a config
is present, both external calls receive the configured default
`config.starknetContracts.eth` as the currency address. -/
theorem fulfillListing_currency_fallback (env : HookEnv)
    (p : fulfillListingParameters) (cfg : Config)
    (hcur : p.currencyAddress = none)
    (hcfg : env.config = some cfg) :
    (∀ args, Event.callApproveERC20 args ∈ (fulfillListing env p).1 →
      args.currencyAddress = some cfg.starknetContracts.eth) ∧
    (∀ c args, Event.callFulfillListingCore c args ∈ (fulfillListing env p).1 →
      args.approveInfo.currencyAddress = some cfg.starknetContracts.eth) := by
  constructor
  · intro args h
    rw [approve_event_args env p args h]
    simp [approveArgsOf, resolvedCurrency, jsOr, hcur, hcfg]
  · intro c args h
    rw [(core_event_args env p c args h).2]
    simp [coreArgsOf, resolvedCurrency, jsOr, hcur, hcfg]

/-- Witness for C4 at a run of the success environment on a record with
no currency address, where both calls actually occur. -/
theorem fulfillListing_currency_fallback_witness :
    (∀ args, Event.callApproveERC20 args ∈ (fulfillListing envOk pNoCurrency).1 →
      args.currencyAddress = some cfgSample.starknetContracts.eth) ∧
    (∀ c args, Event.callFulfillListingCore c args ∈ (fulfillListing envOk pNoCurrency).1 →
      args.approveInfo.currencyAddress = some cfgSample.starknetContracts.eth) :=
  fulfillListing_currency_fallback envOk pNoCurrency cfgSample rfl rfl

/-- C5: with a burner wallet present and a successful approval, the run
contains the approval call and the core fulfillment call, and the latter
receives the same currency address and the same amount value that the
approval call received. -/
theorem fulfillListing_same_currency_amount (env : HookEnv)
    (p : fulfillListingParameters) (w : Wallet)
    (hw : env.arkAccount = some w)
    (ha : env.approveERC20 (approveArgsOf env p) = .ok ()) :
    Event.callApproveERC20 (approveArgsOf env p) ∈ (fulfillListing env p).1 ∧
    Event.callFulfillListingCore env.config (coreArgsOf env p) ∈ (fulfillListing env p).1 ∧
    (coreArgsOf env p).approveInfo.currencyAddress =
      (approveArgsOf env p).currencyAddress ∧
    (coreArgsOf env p).approveInfo.amount = (approveArgsOf env p).startAmount := by
  refine ⟨?_, ?_, ?_, ?_⟩
  · cases hf : env.fulfillListingCore env.config (coreArgsOf env p) <;>
      simp [fulfillListing, hw, ha, hf]
  · cases hf : env.fulfillListingCore env.config (coreArgsOf env p) <;>
      simp [fulfillListing, hw, ha, hf]
  · simp [approveArgsOf, coreArgsOf]
  · simp [approveArgsOf, coreArgsOf, jsNumber]

/-- Witness for C5 at the success environment. -/
theorem fulfillListing_same_currency_amount_witness :
    Event.callApproveERC20 (approveArgsOf envOk pSample) ∈ (fulfillListing envOk pSample).1 ∧
    Event.callFulfillListingCore envOk.config (coreArgsOf envOk pSample) ∈
      (fulfillListing envOk pSample).1 ∧
    (coreArgsOf envOk pSample).approveInfo.currencyAddress =
      (approveArgsOf envOk pSample).currencyAddress ∧
    (coreArgsOf envOk pSample).approveInfo.amount =
      (approveArgsOf envOk pSample).startAmount :=
  fulfillListing_same_currency_amount envOk pSample 0 rfl rfl

/-- The full event sequence of a run in which both calls succeed. -/
def okTrace (env : HookEnv) (p : fulfillListingParameters) : List Event :=
  [.setStatus .loading, .setStepStatus .approving,
   .callApproveERC20 (approveArgsOf env p),
   .setStepStatus .selling,
   .callFulfillListingCore env.config (coreArgsOf env p),
   .setStatus .success, .setStepStatus .sold]

/-- The full event sequence of a run in which the approval throws `e`. -/
def approveFailTrace (env : HookEnv) (p : fulfillListingParameters)
    (e : Err) : List Event :=
  [.setStatus .loading, .setStepStatus .approving,
   .callApproveERC20 (approveArgsOf env p),
   .consoleLogged e, .setStatus .error, .setStepStatus .error]

/-- The full event sequence of a run in which the approval succeeds and
the core fulfillment call throws `e`. -/
def coreFailTrace (env : HookEnv) (p : fulfillListingParameters)
    (e : Err) : List Event :=
  [.setStatus .loading, .setStepStatus .approving,
   .callApproveERC20 (approveArgsOf env p),
   .setStepStatus .selling,
   .callFulfillListingCore env.config (coreArgsOf env p),
   .consoleLogged e, .setStatus .error, .setStepStatus .error]

/-- C7: with a burner wallet present, the trace of every invocation is
exactly one of three sequences: `loading`/`approving` are set before the
approval call; `selling` is set after a successful approval and before
the fulfillment call; then either `success`/`sold` on success or
`error`/`error` (after logging) on a failure of either call.  No other
status values are ever assigned. -/
theorem fulfillListing_trace_shape (env : HookEnv)
    (p : fulfillListingParameters) (w : Wallet)
    (hw : env.arkAccount = some w) :
    (fulfillListing env p).1 = okTrace env p ∨
    (∃ e, (fulfillListing env p).1 = approveFailTrace env p e) ∨
    (∃ e, (fulfillListing env p).1 = coreFailTrace env p e) := by
  cases ha : env.approveERC20 (approveArgsOf env p) with
  | error e =>
    exact Or.inr (Or.inl ⟨e, by simp [fulfillListing, hw, ha, approveFailTrace]⟩)
  | ok u =>
    cases hf : env.fulfillListingCore env.config (coreArgsOf env p) with
    | error e =>
      exact Or.inr (Or.inr ⟨e, by simp [fulfillListing, hw, ha, hf, coreFailTrace]⟩)
    | ok v =>
      exact Or.inl (by simp [fulfillListing, hw, ha, hf, okTrace])

/-- Witness for C7 at the success environment. -/
theorem fulfillListing_trace_shape_witness :
    (fulfillListing envOk pSample).1 = okTrace envOk pSample ∨
    (∃ e, (fulfillListing envOk pSample).1 = approveFailTrace envOk pSample e) ∨
    (∃ e, (fulfillListing envOk pSample).1 = coreFailTrace envOk pSample e) :=
  fulfillListing_trace_shape envOk pSample 0 rfl

/-- C10: after any completed run with a burner wallet present, the final
pair is (`success`, `sold`) or (`error`, `error`); hence `stepStatus` is
`sold` iff `status` is `success`, and `error` iff `status` is `error`. -/
theorem fulfillListing_final_state_pairs (env : HookEnv)
    (p : fulfillListingParameters) (st : HookState) (w : Wallet)
    (hw : env.arkAccount = some w) :
    (((runEvents st (fulfillListing env p).1).status = .success ∧
      (runEvents st (fulfillListing env p).1).stepStatus = .sold) ∨
     ((runEvents st (fulfillListing env p).1).status = .error ∧
      (runEvents st (fulfillListing env p).1).stepStatus = .error)) ∧
    ((runEvents st (fulfillListing env p).1).stepStatus = .sold ↔
      (runEvents st (fulfillListing env p).1).status = .success) ∧
    ((runEvents st (fulfillListing env p).1).stepStatus = .error ↔
      (runEvents st (fulfillListing env p).1).status = .error) := by
  cases ha : env.approveERC20 (approveArgsOf env p) with
  | error e => simp [fulfillListing, hw, ha, runEvents, applyEvent]
  | ok u =>
    cases hf : env.fulfillListingCore env.config (coreArgsOf env p) <;>
      simp [fulfillListing, hw, ha, hf, runEvents, applyEvent]

/-- Witness for C10 at the success environment. -/
theorem fulfillListing_final_state_pairs_witness :
    (((runEvents ⟨.idle, .idle⟩ (fulfillListing envOk pSample).1).status = .success ∧
      (runEvents ⟨.idle, .idle⟩ (fulfillListing envOk pSample).1).stepStatus = .sold) ∨
     ((runEvents ⟨.idle, .idle⟩ (fulfillListing envOk pSample).1).status = .error ∧
      (runEvents ⟨.idle, .idle⟩ (fulfillListing envOk pSample).1).stepStatus = .error)) ∧
    ((runEvents ⟨.idle, .idle⟩ (fulfillListing envOk pSample).1).stepStatus = .sold ↔
      (runEvents ⟨.idle, .idle⟩ (fulfillListing envOk pSample).1).status = .success) ∧
    ((runEvents ⟨.idle, .idle⟩ (fulfillListing envOk pSample).1).stepStatus = .error ↔
      (runEvents ⟨.idle, .idle⟩ (fulfillListing envOk pSample).1).status = .error) :=
  fulfillListing_final_state_pairs envOk pSample ⟨.idle, .idle⟩ 0 rfl

/-- C8: when artifact loading, calldata compilation and the account's
`declareAndDeploy` call all succeed, `declareDeploy` submits exactly one
declare+deploy request, with the fixed salt `0x7777`, and returns a
contract handle built from the loaded ABI and exactly the address
`deployR.deploy.contract_address` of the deploy response. -/
theorem declareDeploy_ok (env : DeployEnv) (path : String) (provider : Nat)
    (cd : ConstructorData) (artifacts : Artifacts) (calldata : List Nat)
    (deployR : DeployResponse)
    (hl : env.load_artifacts path "arkchain_orderbook" = .ok artifacts)
    (hc : env.compileConstructor artifacts.sierra.abi cd.admin = .ok calldata)
    (hd : env.declareAndDeploy
        { contract := artifacts.sierra, casm := artifacts.casm,
          constructorCalldata := calldata, salt := 0x7777 } = .ok deployR) :
    (declareDeploy env path provider cd).1 =
      [{ contract := artifacts.sierra, casm := artifacts.casm,
         constructorCalldata := calldata, salt := 0x7777 }] ∧
    (declareDeploy env path provider cd).2 =
      .ok { abi := artifacts.sierra.abi,
            address := deployR.deploy.contract_address,
            provider := provider } := by
  simp [declareDeploy, hl, hc, hd]

/-- A concrete deployment environment for the witness. -/
def deployEnvSample : DeployEnv :=
  { load_artifacts := fun _ _ => .ok { sierra := { abi := 6, program := 7 }, casm := 8 }
    compileConstructor := fun _ admin => .ok [admin]
    declareAndDeploy := fun _ => .ok { deploy := { contract_address := 900 } } }

/-- Witness for C8 at the concrete deployment environment. -/
theorem declareDeploy_ok_witness :
    (declareDeploy deployEnvSample "artifacts" 1 { admin := 5 }).1 =
      [{ contract := { abi := 6, program := 7 }, casm := 8,
         constructorCalldata := [5], salt := 0x7777 }] ∧
    (declareDeploy deployEnvSample "artifacts" 1 { admin := 5 }).2 =
      .ok { abi := 6, address := 900, provider := 1 } :=
  declareDeploy_ok deployEnvSample "artifacts" 1 { admin := 5 }
    { sierra := { abi := 6, program := 7 }, casm := 8 } [5]
    { deploy := { contract_address := 900 } } rfl rfl rfl

end ArkProject
